import Mathlib

set_option maxRecDepth 100000

/-!
Shallow embedding of the Flask build-and-deploy server (`app.py`).

The single route handler `upload_file` validates an uploaded archive,
saves it, unpacks it, searches the extracted tree for `package.json`,
ensures a `Dockerfile` next to it, then invokes the external container
runtime (`docker build`, `docker rm -f`, `docker run`).  We embed the
handler as a pure function from an abstract `World` (the request plus
oracles for every external interaction) to an outcome together with the
ordered trace of side effects it performs.
-/

namespace App

/-- `UPLOAD_FOLDER = './uploads'` from the module configuration. -/
def UPLOAD_FOLDER : String := "./uploads"

/-- `BUILD_FOLDER = './builds'` from the module configuration. -/
def BUILD_FOLDER : String := "./builds"

/-- `ALLOWED_EXTENSIONS = {'zip'}` from the module configuration. -/
def ALLOWED_EXTENSIONS : List String := ["zip"]

/-- ASCII lowercase of one character (Python `str.lower` restricted to
the ASCII range, which is all the source ever lowercases). -/
def lowerChar (c : Char) : Char :=
  if 'A' ≤ c ∧ c ≤ 'Z' then Char.ofNat (c.toNat + 32) else c

/-- ASCII lowercase of a string. -/
def strToLower (s : String) : String :=
  String.mk (s.toList.map lowerChar)

/-- Characters after the last `'.'` of the list (Python
`filename.rsplit('.', 1)[1]` when a dot is present). -/
def afterLastDot (l : List Char) : List Char :=
  (l.reverse.takeWhile (fun c => c ≠ '.')).reverse

/-- `allowed_file` from `app.py`:
`'.' in filename and filename.rsplit('.', 1)[1].lower() in ALLOWED_EXTENSIONS`. -/
def allowed_file (filename : String) : Bool :=
  filename.toList.contains '.' &&
    ALLOWED_EXTENSIONS.contains (strToLower (String.mk (afterLastDot filename.toList)))

/-- Index of the last occurrence of `c` in `l`, if any
(Python `str.rfind` restricted to single characters, `None` for `-1`). -/
def findLastIdx (l : List Char) (c : Char) : Option Nat :=
  match l with
  | [] => none
  | x :: xs =>
    match findLastIdx xs c with
    | some i => some (i + 1)
    | none => if x = c then some 0 else none

/-- `os.path.splitext(p)[0]` on POSIX: split at the last dot of the final
path component, unless every character between the last separator and
that dot is itself a dot (leading dots of a basename are not extensions). -/
def splitextRoot (p : String) : String :=
  let l := p.toList
  match findLastIdx l '.' with
  | none => p
  | some d =>
    let start :=
      match findLastIdx l '/' with
      | none => 0
      | some s => s + 1
    if start ≤ d ∧ (findLastIdx l '/').all (fun s => s < d) then
      if ((l.drop start).take (d - start)).any (fun c => c ≠ '.') then
        String.mk (l.take d)
      else p
    else p

/-- Does the string start with the character `c`? -/
def headIs (s : String) (c : Char) : Bool :=
  match s.toList with
  | [] => false
  | x :: _ => x = c

/-- Does the string end with the character `c`? -/
def lastIs (s : String) (c : Char) : Bool :=
  match s.toList.reverse with
  | [] => false
  | x :: _ => x = c

/-- `os.path.join(a, b)` on POSIX for two components: an absolute second
component discards the first; otherwise a `'/'` is inserted unless the
first component is empty or already ends with one. -/
def joinPath (a b : String) : String :=
  if headIs b '/' then b
  else if a.toList.isEmpty || lastIs a '/' then a ++ b
  else a ++ "/" ++ b

/-- `os.path.dirname(p)` on POSIX: everything up to the last `'/'`,
with trailing separators stripped unless the head is all separators. -/
def dirname (p : String) : String :=
  let l := p.toList
  match findLastIdx l '/' with
  | none => ""
  | some i =>
    let head := l.take (i + 1)
    if head.all (fun c => c = '/') then String.mk head
    else String.mk ((head.reverse.dropWhile (fun c => c = '/')).reverse)

/-- One step of lexical path normalisation over a reversed component
stack: drop empty and `"."` components, let `".."` pop a previous real
component. -/
def normStep (acc : List String) (c : String) : List String :=
  if c = "" ∨ c = "." then acc
  else if c = ".." then
    match acc with
    | [] => [".."]
    | top :: rest => if top = ".." then c :: acc else rest
  else c :: acc

/-- Split a character list at every `'/'`. -/
def splitSlash (l : List Char) : List String :=
  match l with
  | [] => [""]
  | '/' :: rest => "" :: splitSlash rest
  | c :: rest =>
    match splitSlash rest with
    | [] => [String.mk [c]]
    | s :: ss => (String.mk [c] ++ s) :: ss

/-- Lexical normalisation of a path: absoluteness flag plus the
normalised component list. -/
def normalizePath (p : String) : Bool × List String :=
  (headIs p '/', ((splitSlash p.toList).foldl normStep []).reverse)

/-- `p` stays inside `base` after lexical normalisation: same
absoluteness and `base`'s components are a prefix of `p`'s. -/
def pathWithin (base p : String) : Bool :=
  let nb := normalizePath base
  let np := normalizePath p
  nb.1 = np.1 && nb.2.isPrefixOf np.2

mutual

/-- An extracted directory tree: the files directly in a directory and
its named subdirectories. -/
inductive FTree where
  | node (files : List String) (subdirs : Forest)

/-- A list of named subtrees, kept as a separate inductive so that all
recursion over trees is structural. -/
inductive Forest where
  | nil
  | cons (name : String) (t : FTree) (rest : Forest)

end

mutual

/-- `find_file` from `app.py`: walk the tree top-down (`os.walk`), and in
the first directory whose file list contains `target`, return
`os.path.join(root, target)`. -/
def find_file (target : String) (root : String) : FTree → Option String
  | .node fs ds =>
    if fs.contains target then some (joinPath root target)
    else findInForest target root ds

/-- Continuation of `find_file` over a directory's subdirectories, in
listing order. -/
def findInForest (target : String) (root : String) : Forest → Option String
  | .nil => none
  | .cons name t rest =>
    match find_file target (joinPath root name) t with
    | some p => some p
    | none => findInForest target root rest

end

mutual

/-- A file named `target` occurs somewhere in the tree, at any depth. -/
def FTree.containsFile (target : String) : FTree → Bool
  | .node fs ds => fs.contains target || Forest.containsFile target ds

/-- `FTree.containsFile` lifted to forests. -/
def Forest.containsFile (target : String) : Forest → Bool
  | .nil => false
  | .cons _ t rest => FTree.containsFile target t || Forest.containsFile target rest

end

/-- The literal written by `dockerfile.write("""...""")` in `app.py`:
a leading newline, seven 16-space-indented lines, and a trailing
16-space indent before the closing quotes. -/
def defaultDockerfile : String :=
  "\n                FROM node:16\n                WORKDIR /app\n                COPY package*.json ./\n                RUN npm install\n                COPY . .\n                EXPOSE 3000\n                CMD [\"npm\", \"start\"]\n                "

/-- One observable side effect of the handler, in the order performed:
a raw-upload save (`file.save`), an archive unpack
(`shutil.unpack_archive`), a file write (`open(..., 'w')`), or one of
the three `subprocess.run` invocations of the container runtime. -/
inductive Effect where
  | saveFile (path : String)
  | unpackArchive (src : String) (dest : String)
  | writeFile (path : String) (content : String)
  | procBuild (tag : String) (contextDir : String)
  | procRm (container : String) (force : Bool)
  | procRun (detached : Bool) (container : String) (ports : String) (image : String)
deriving DecidableEq

/-- What the route handler produces: either a `jsonify(...), status`
response with its key/value fields, or a Python exception escaping the
handler uncaught (Flask then renders a generic server error, not a
structured payload). -/
inductive Outcome where
  | response (status : Nat) (fields : List (String × String))
  | pythonError (msg : String)
deriving DecidableEq

/-- The state of the located build-context directory that the
descriptor-synthesis step reads and writes: the content of its
`Dockerfile`, if one exists. -/
structure DirState where
  dockerfileContent : Option String
deriving DecidableEq

/-- Lines 61-74 of `app.py` as a unit: if `os.path.exists(dockerfile_path)`
is false (no content present), write the default Dockerfile there;
otherwise do nothing. Returns the new directory state and the writes
performed. -/
def ensureDockerfile (dirPath : String) (s : DirState) : DirState × List Effect :=
  match s.dockerfileContent with
  | some _ => (s, [])
  | none =>
    (⟨some defaultDockerfile⟩,
     [Effect.writeFile (joinPath dirPath "Dockerfile") defaultDockerfile])

/-- Line 77 of `app.py`:
`image_name = f"{os.path.splitext(file.filename)[0].lower()}-image"`. -/
def imageNameOf (filename : String) : String :=
  strToLower (splitextRoot filename) ++ "-image"

/-- Line 78 of `app.py`:
`container_name = f"{os.path.splitext(file.filename)[0].lower()}-container"`. -/
def containerNameOf (filename : String) : String :=
  strToLower (splitextRoot filename) ++ "-container"

/-- Did the handler produce a `jsonify` response at all (as opposed to an
exception escaping it)? -/
def Outcome.isResponse : Outcome → Bool
  | .response _ _ => true
  | .pythonError _ => false

/-- Is the outcome a structured client-fault response: status 400 with a
single `error` field? -/
def Outcome.isError400 : Outcome → Bool
  | .response 400 [("error", _)] => true
  | _ => false

/-- The request plus oracles for every interaction of one handler run
with the outside world: the `file` field's filename (if the field is
present), the tree the archive unpacks to (`none` when
`shutil.unpack_archive` raises), the message of that exception, the
content of a pre-existing `Dockerfile` in the build context (if any),
and exit codes / captured stderr of the three external commands. -/
structure World where
  fileField : Option String
  archive : Option FTree
  unpackErrMsg : String
  dockerfile : Option String
  buildExitCode : Nat
  buildStderr : String
  rmExitCode : Nat
  runExitCode : Nat
  runStderr : String

/-- The `/upload` route handler `upload_file` from `app.py`, embedded as
a function from a `World` to the outcome and the ordered trace of side
effects. Control flow mirrors the source line by line: missing field /
empty filename / bad extension checks, save, unpack (uncaught on
failure), recursive `package.json` search, Dockerfile synthesis, then
`docker build` (checked), `docker rm -f` (unchecked), `docker run`
(checked), with `subprocess.CalledProcessError` mapped to a 500. -/
def upload_file (w : World) : Outcome × List Effect :=
  match w.fileField with
  | none => (.response 400 [("error", "No file part in the request")], [])
  | some filename =>
    if filename = "" then
      (.response 400 [("error", "No selected file")], [])
    else if allowed_file filename then
      let filepath := joinPath UPLOAD_FOLDER filename
      let extract_path := joinPath BUILD_FOLDER (splitextRoot filename)
      match w.archive with
      | none => (.pythonError w.unpackErrMsg, [Effect.saveFile filepath])
      | some tree =>
        let effs1 := [Effect.saveFile filepath, Effect.unpackArchive filepath extract_path]
        match find_file "package.json" extract_path tree with
        | none =>
          (.response 400 [("error", "package.json not found in the extracted ZIP.")], effs1)
        | some package_json_path =>
          let ctxDir := dirname package_json_path
          let dfStep := ensureDockerfile ctxDir ⟨w.dockerfile⟩
          let image_name := imageNameOf filename
          let container_name := containerNameOf filename
          let effs2 := effs1 ++ dfStep.2 ++ [Effect.procBuild image_name ctxDir]
          if w.buildExitCode ≠ 0 then
            (.response 500 [("error", "Docker error: " ++ w.buildStderr)], effs2)
          else
            let effs3 := effs2 ++ [Effect.procRm container_name true,
              Effect.procRun true container_name "3000:3000" image_name]
            if w.runExitCode ≠ 0 then
              (.response 500 [("error", "Docker error: " ++ w.runStderr)], effs3)
            else
              (.response 200
                [("message", "File uploaded and Docker container started successfully"),
                 ("docker_image", image_name),
                 ("docker_container", container_name)], effs3)
    else
      (.response 400 [("error", "Invalid file format. Only .zip files are allowed.")], [])

/-! Concrete worlds used to instantiate the theorems below. -/

/-- An extracted tree with the manifest nested at `sub/pkg/package.json`. -/
def tDemo : FTree :=
  .node [] (.cons "sub" (.node [] (.cons "pkg" (.node ["package.json"] .nil) .nil)) .nil)

/-- An extracted tree with the manifest directly at the root. -/
def tFlat : FTree := .node ["package.json"] .nil

/-- An extracted tree containing no `package.json` anywhere. -/
def tNoApp : FTree :=
  .node ["readme.md"] (.cons "docs" (.node ["notes.txt"] .nil) .nil)

/-- A fully successful run of `demo.zip` with no pre-existing Dockerfile. -/
def wDemoOk : World := ⟨some "demo.zip", some tDemo, "", none, 0, "", 0, 0, ""⟩

/-- A request carrying a file with a disallowed extension. -/
def wBadTxt : World := ⟨some "bad.txt", none, "", none, 0, "", 0, 0, ""⟩

/-- A request whose accepted archive is malformed: unpacking raises. -/
def wCorrupt : World :=
  ⟨some "corrupt.zip", none, "File is not a zip file", none, 0, "", 0, 0, ""⟩

/-- A valid archive with no `package.json` anywhere in its tree. -/
def wNoApp : World := ⟨some "noapp.zip", some tNoApp, "", none, 0, "", 0, 0, ""⟩

/-- A run whose `docker build` exits non-zero. -/
def wBuildFail : World :=
  ⟨some "demo.zip", some tDemo, "", none, 1, "build exploded", 0, 0, ""⟩

/-- A successful run of `app.zip` whose manifest sits at the archive root. -/
def wAppFlat : World := ⟨some "app.zip", some tFlat, "", none, 0, "", 0, 0, ""⟩

/-- A successful run of `app.zip` whose manifest sits two levels deep. -/
def wAppDeep : World := ⟨some "app.zip", some tDemo, "", some "FROM scratch", 0, "", 0, 0, ""⟩

/-- A run of a crafted filename containing parent-directory separators. -/
def wEvil : World :=
  ⟨some "../../evil.zip", some (FTree.node [] Forest.nil), "", none, 0, "", 0, 0, ""⟩

/-! Shared helper lemmas. -/

mutual

/-- If no file named `target` occurs anywhere in the tree, the walk of
`find_file` finds nothing, whatever the root path is. -/
theorem find_file_eq_none (target : String) :
    ∀ t : FTree, FTree.containsFile target t = false →
      ∀ root, find_file target root t = none
  | .node fs ds, h, root => by
    rw [FTree.containsFile] at h
    rw [find_file]
    rcases Bool.or_eq_false_iff.mp h with ⟨h1, h2⟩
    rw [h1]
    exact findInForest_eq_none target ds h2 root

/-- `find_file_eq_none` for forests. -/
theorem findInForest_eq_none (target : String) :
    ∀ f : Forest, Forest.containsFile target f = false →
      ∀ root, findInForest target root f = none
  | .nil, _, _ => rfl
  | .cons name t rest, h, root => by
    rw [Forest.containsFile] at h
    rcases Bool.or_eq_false_iff.mp h with ⟨h1, h2⟩
    rw [findInForest, find_file_eq_none target t h1 (joinPath root name)]
    exact findInForest_eq_none target rest h2 root

end

/-- The handler never reads the exit code of `docker rm -f`
(no `check=True` on that invocation): two worlds differing only in that
exit code produce identical outcomes and identical effect traces. -/
theorem upload_file_rm_exit_irrelevant (f : Option String) (a : Option FTree)
    (u : String) (d : Option String) (b : Nat) (bs : String) (rm rm' rn : Nat)
    (rs : String) :
    upload_file ⟨f, a, u, d, b, bs, rm, rn, rs⟩ =
      upload_file ⟨f, a, u, d, b, bs, rm', rn, rs⟩ := by
  cases f with
  | none => rfl
  | some fn =>
    by_cases h1 : fn = ""
    · simp [upload_file, h1]
    · by_cases h2 : allowed_file fn
      · cases a with
        | none => simp [upload_file, h1, h2]
        | some tree =>
          cases hf : find_file "package.json" (joinPath BUILD_FOLDER (splitextRoot fn)) tree with
          | none => simp [upload_file, h1, h2, hf]
          | some p =>
            by_cases h3 : b = 0
            · by_cases h4 : rn = 0 <;> simp [upload_file, h1, h2, hf, h3, h4]
            · simp [upload_file, h1, h2, hf, h3]
      · simp [upload_file, h1, h2]

/-! The claims. -/

/-- C1: every upload with the accepted extension whose archive extracts
to a tree containing `package.json` and whose build and run commands
exit zero saves the upload, unpacks it, performs the descriptor step (a
write of the default Dockerfile next to the located `package.json`
exactly when none exists there, nothing otherwise), builds the image
from the directory containing `package.json`, starts a detached
container publishing 3000:3000, and returns status 200 with a message,
the image name and the container name. -/
theorem upload_success_full_run (w : World) (fn : String) (tree : FTree) (p : String)
    (hf : w.fileField = some fn) (hne : fn ≠ "") (hal : allowed_file fn = true)
    (har : w.archive = some tree)
    (hfind : find_file "package.json" (joinPath BUILD_FOLDER (splitextRoot fn)) tree = some p)
    (hb : w.buildExitCode = 0) (hr : w.runExitCode = 0) :
    upload_file w =
      (Outcome.response 200
        [("message", "File uploaded and Docker container started successfully"),
         ("docker_image", imageNameOf fn),
         ("docker_container", containerNameOf fn)],
       [Effect.saveFile (joinPath UPLOAD_FOLDER fn),
        Effect.unpackArchive (joinPath UPLOAD_FOLDER fn)
          (joinPath BUILD_FOLDER (splitextRoot fn))]
       ++ (ensureDockerfile (dirname p) ⟨w.dockerfile⟩).2
       ++ [Effect.procBuild (imageNameOf fn) (dirname p),
           Effect.procRm (containerNameOf fn) true,
           Effect.procRun true (containerNameOf fn) "3000:3000" (imageNameOf fn)]) ∧
    (w.dockerfile = none →
      (ensureDockerfile (dirname p) ⟨w.dockerfile⟩).2 =
        [Effect.writeFile (joinPath (dirname p) "Dockerfile") defaultDockerfile]) ∧
    (∀ c, w.dockerfile = some c →
      (ensureDockerfile (dirname p) ⟨w.dockerfile⟩).2 = []) := by
  refine ⟨?_, ?_, ?_⟩
  · simp [upload_file, hf, hne, hal, har, hfind, hb, hr]
  · intro h
    simp [h, ensureDockerfile]
  · intro c h
    simp [h, ensureDockerfile]

/-- Witness for C1: the `demo.zip` world with the manifest at
`sub/pkg/package.json` and no pre-existing Dockerfile. -/
theorem upload_success_full_run_witness :
    upload_file wDemoOk =
      (Outcome.response 200
        [("message", "File uploaded and Docker container started successfully"),
         ("docker_image", "demo-image"),
         ("docker_container", "demo-container")],
       [Effect.saveFile "./uploads/demo.zip",
        Effect.unpackArchive "./uploads/demo.zip" "./builds/demo",
        Effect.writeFile "./builds/demo/sub/pkg/Dockerfile" defaultDockerfile,
        Effect.procBuild "demo-image" "./builds/demo/sub/pkg",
        Effect.procRm "demo-container" true,
        Effect.procRun true "demo-container" "3000:3000" "demo-image"]) ∧
    (ensureDockerfile "./builds/demo/sub/pkg" ⟨none⟩).2 =
      [Effect.writeFile "./builds/demo/sub/pkg/Dockerfile" defaultDockerfile] :=
  ⟨(upload_success_full_run wDemoOk "demo.zip" tDemo
      "./builds/demo/sub/pkg/package.json"
      rfl (by decide) (by decide) rfl (by decide) rfl rfl).1,
   (upload_success_full_run wDemoOk "demo.zip" tDemo
      "./builds/demo/sub/pkg/package.json"
      rfl (by decide) (by decide) rfl (by decide) rfl rfl).2.1 rfl⟩

/-- C2: a request with a missing file field, an empty filename, or a
filename without the accepted extension gets a structured 400 error and
the handler performs no filesystem write and no process invocation. -/
theorem upload_invalid_rejected_without_side_effects (w : World)
    (h : w.fileField = none ∨
      ∃ fn, w.fileField = some fn ∧ (fn = "" ∨ allowed_file fn = false)) :
    Outcome.isError400 (upload_file w).1 = true ∧ (upload_file w).2 = [] := by
  rcases h with h | ⟨fn, hf, hcase⟩
  · exact ⟨by simp [upload_file, h, Outcome.isError400],
      by simp [upload_file, h]⟩
  · rcases hcase with rfl | hbad
    · exact ⟨by simp [upload_file, hf, Outcome.isError400],
        by simp [upload_file, hf]⟩
    · by_cases he : fn = ""
      · subst he
        exact ⟨by simp [upload_file, hf, Outcome.isError400],
          by simp [upload_file, hf]⟩
      · exact ⟨by simp [upload_file, hf, he, hbad, Outcome.isError400],
          by simp [upload_file, hf, he, hbad]⟩

/-- Witness for C2: uploading `bad.txt` is rejected with no side effect. -/
theorem upload_invalid_rejected_witness :
    Outcome.isError400 (upload_file wBadTxt).1 = true ∧ (upload_file wBadTxt).2 = [] :=
  upload_invalid_rejected_without_side_effects wBadTxt
    (Or.inr ⟨"bad.txt", rfl, Or.inr (by decide)⟩)

/-- C3 counterexample: on `corrupt.zip` whose unpacking raises, the
handler does not return any structured response at all — the exception
escapes it (the only `try` in the handler covers the Docker subprocess
calls, not `shutil.unpack_archive`), so no client-fault error payload is
produced. -/
theorem upload_extraction_failure_counterexample :
    upload_file wCorrupt =
      (Outcome.pythonError "File is not a zip file",
        [Effect.saveFile "./uploads/corrupt.zip"]) ∧
      Outcome.isResponse (upload_file wCorrupt).1 = false := by
  constructor
  · decide
  · decide

/-- C3 amended: extraction failure on an accepted filename aborts the
remaining pipeline immediately (the saved upload is the only side
effect), but it is not translated into a structured error response: the
exception propagates out of the handler uncaught. -/
theorem upload_extraction_failure_uncaught (w : World) (fn : String)
    (hf : w.fileField = some fn) (hne : fn ≠ "") (hal : allowed_file fn = true)
    (har : w.archive = none) :
    upload_file w =
      (Outcome.pythonError w.unpackErrMsg,
        [Effect.saveFile (joinPath UPLOAD_FOLDER fn)]) ∧
      Outcome.isResponse (upload_file w).1 = false := by
  have hmain : upload_file w =
      (Outcome.pythonError w.unpackErrMsg,
        [Effect.saveFile (joinPath UPLOAD_FOLDER fn)]) := by
    simp [upload_file, hf, hne, hal, har]
  exact ⟨hmain, by rw [hmain]; rfl⟩

/-- Witness for the amended C3, at the `corrupt.zip` world. -/
theorem upload_extraction_failure_uncaught_witness :
    upload_file wCorrupt =
      (Outcome.pythonError "File is not a zip file",
        [Effect.saveFile (joinPath UPLOAD_FOLDER "corrupt.zip")]) ∧
      Outcome.isResponse (upload_file wCorrupt).1 = false :=
  upload_extraction_failure_uncaught wCorrupt "corrupt.zip"
    rfl (by decide) (by decide) rfl

/-- C4: a successfully extracted archive whose tree contains no
`package.json` at any depth yields status 400 with exactly the message
`package.json not found in the extracted ZIP.`, and the trace holds no
build or deploy command — only the save and the unpack. -/
theorem upload_no_manifest_400 (w : World) (fn : String) (tree : FTree)
    (hf : w.fileField = some fn) (hne : fn ≠ "") (hal : allowed_file fn = true)
    (har : w.archive = some tree)
    (hno : FTree.containsFile "package.json" tree = false) :
    upload_file w =
      (Outcome.response 400 [("error", "package.json not found in the extracted ZIP.")],
       [Effect.saveFile (joinPath UPLOAD_FOLDER fn),
        Effect.unpackArchive (joinPath UPLOAD_FOLDER fn)
          (joinPath BUILD_FOLDER (splitextRoot fn))]) := by
  have hfind := find_file_eq_none "package.json" tree hno
    (joinPath BUILD_FOLDER (splitextRoot fn))
  simp [upload_file, hf, hne, hal, har, hfind]

/-- Witness for C4: `noapp.zip`, whose tree has files and a
subdirectory but no `package.json`. -/
theorem upload_no_manifest_400_witness :
    upload_file wNoApp =
      (Outcome.response 400 [("error", "package.json not found in the extracted ZIP.")],
       [Effect.saveFile "./uploads/noapp.zip",
        Effect.unpackArchive "./uploads/noapp.zip" "./builds/noapp"]) :=
  upload_no_manifest_400 wNoApp "noapp.zip" tNoApp
    rfl (by decide) (by decide) rfl (by decide)

/-- C5: when `docker build` exits non-zero, the handler returns status
500 with `{error: "Docker error: <captured stderr>"}`, and the trace
ends at the build invocation — it contains no `docker rm` and no
`docker run`. -/
theorem upload_build_failure_500 (w : World) (fn : String) (tree : FTree) (p : String)
    (hf : w.fileField = some fn) (hne : fn ≠ "") (hal : allowed_file fn = true)
    (har : w.archive = some tree)
    (hfind : find_file "package.json" (joinPath BUILD_FOLDER (splitextRoot fn)) tree = some p)
    (hb : w.buildExitCode ≠ 0) :
    upload_file w =
      (Outcome.response 500 [("error", "Docker error: " ++ w.buildStderr)],
       [Effect.saveFile (joinPath UPLOAD_FOLDER fn),
        Effect.unpackArchive (joinPath UPLOAD_FOLDER fn)
          (joinPath BUILD_FOLDER (splitextRoot fn))]
        ++ (ensureDockerfile (dirname p) ⟨w.dockerfile⟩).2
        ++ [Effect.procBuild (imageNameOf fn) (dirname p)]) := by
  simp [upload_file, hf, hne, hal, har, hfind, hb]

/-- Witness for C5: the `demo.zip` world whose build exits non-zero. -/
theorem upload_build_failure_500_witness :
    upload_file wBuildFail =
      (Outcome.response 500 [("error", "Docker error: build exploded")],
       [Effect.saveFile "./uploads/demo.zip",
        Effect.unpackArchive "./uploads/demo.zip" "./builds/demo",
        Effect.writeFile "./builds/demo/sub/pkg/Dockerfile" defaultDockerfile,
        Effect.procBuild "demo-image" "./builds/demo/sub/pkg"]) :=
  upload_build_failure_500 wBuildFail "demo.zip" tDemo
    "./builds/demo/sub/pkg/package.json"
    rfl (by decide) (by decide) rfl (by decide) (by decide)

/-- C6: descriptor synthesis writes the default Dockerfile exactly when
none exists, never alters an existing one, and running it twice on the
same directory leaves byte-identical content with a single write in
total (when it writes at all). -/
theorem ensureDockerfile_idempotent (d : String) (s : DirState) :
    ((ensureDockerfile d s).2 ≠ [] ↔ s.dockerfileContent = none) ∧
    (∀ c, s.dockerfileContent = some c →
      (ensureDockerfile d s).1 = s ∧ (ensureDockerfile d s).2 = []) ∧
    (ensureDockerfile d (ensureDockerfile d s).1).1.dockerfileContent =
      (ensureDockerfile d s).1.dockerfileContent ∧
    (ensureDockerfile d (ensureDockerfile d s).1).2 = [] ∧
    (s.dockerfileContent = none →
      (ensureDockerfile d s).2 =
        [Effect.writeFile (joinPath d "Dockerfile") defaultDockerfile] ∧
      (ensureDockerfile d s).2.length +
        (ensureDockerfile d (ensureDockerfile d s).1).2.length = 1) := by
  obtain ⟨c⟩ := s
  cases c <;> simp [ensureDockerfile]

/-- Witness for C6: a directory with no descriptor gets exactly one
write, and the second run writes nothing. -/
theorem ensureDockerfile_idempotent_witness :
    (ensureDockerfile "./builds/demo/sub/pkg" ⟨none⟩).2 =
      [Effect.writeFile "./builds/demo/sub/pkg/Dockerfile" defaultDockerfile] ∧
    (ensureDockerfile "./builds/demo/sub/pkg"
      (ensureDockerfile "./builds/demo/sub/pkg" ⟨none⟩).1).2 = [] :=
  ⟨((ensureDockerfile_idempotent "./builds/demo/sub/pkg" ⟨none⟩).2.2.2.2 rfl).1,
   (ensureDockerfile_idempotent "./builds/demo/sub/pkg" ⟨none⟩).2.2.2.1⟩

/-- C7: on any successful run the payload names the image
`lower(splitext(filename)) ++ "-image"` and the container likewise with
`"-container"`; two successful runs of the same filename produce the
same outcome whatever their trees, manifest depths, or pre-existing
descriptors. -/
theorem upload_naming_deterministic (w w' : World) (fn : String)
    (tree tree' : FTree) (p p' : String)
    (hf : w.fileField = some fn) (hf' : w'.fileField = some fn)
    (hne : fn ≠ "") (hal : allowed_file fn = true)
    (har : w.archive = some tree) (har' : w'.archive = some tree')
    (hfind : find_file "package.json" (joinPath BUILD_FOLDER (splitextRoot fn)) tree = some p)
    (hfind' : find_file "package.json" (joinPath BUILD_FOLDER (splitextRoot fn)) tree' = some p')
    (hb : w.buildExitCode = 0) (hb' : w'.buildExitCode = 0)
    (hr : w.runExitCode = 0) (hr' : w'.runExitCode = 0) :
    (upload_file w).1 =
      Outcome.response 200
        [("message", "File uploaded and Docker container started successfully"),
         ("docker_image", strToLower (splitextRoot fn) ++ "-image"),
         ("docker_container", strToLower (splitextRoot fn) ++ "-container")] ∧
    (upload_file w).1 = (upload_file w').1 := by
  have h1 : (upload_file w).1 =
      Outcome.response 200
        [("message", "File uploaded and Docker container started successfully"),
         ("docker_image", strToLower (splitextRoot fn) ++ "-image"),
         ("docker_container", strToLower (splitextRoot fn) ++ "-container")] := by
    simp [upload_file, hf, hne, hal, har, hfind, hb, hr,
      imageNameOf, containerNameOf]
  have h2 : (upload_file w').1 =
      Outcome.response 200
        [("message", "File uploaded and Docker container started successfully"),
         ("docker_image", strToLower (splitextRoot fn) ++ "-image"),
         ("docker_container", strToLower (splitextRoot fn) ++ "-container")] := by
    simp [upload_file, hf', hne, hal, har', hfind', hb', hr',
      imageNameOf, containerNameOf]
  exact ⟨h1, h1.trans h2.symm⟩

/-- Witness for C7: `app.zip` with the manifest at the root versus
`app.zip` with the manifest two levels deep (and a pre-existing
descriptor): both derive `app-image` / `app-container` and the same
outcome. -/
theorem upload_naming_deterministic_witness :
    (upload_file wAppFlat).1 =
      Outcome.response 200
        [("message", "File uploaded and Docker container started successfully"),
         ("docker_image", "app-image"),
         ("docker_container", "app-container")] ∧
    (upload_file wAppFlat).1 = (upload_file wAppDeep).1 :=
  upload_naming_deterministic wAppFlat wAppDeep "app.zip" tFlat tDemo
    "./builds/app/package.json" "./builds/app/sub/pkg/package.json"
    rfl rfl (by decide) (by decide) rfl rfl (by decide) (by decide)
    rfl rfl rfl rfl

/-- C8: the exit code of the pre-deploy `docker rm -f` is never read:
changing it changes neither the outcome nor the trace, and on the
build-success path the run proceeds past the removal to `docker run`. -/
theorem upload_rm_failure_swallowed (f : Option String) (a : Option FTree)
    (u : String) (d : Option String) (b : Nat) (bs : String) (rm rm' rn : Nat)
    (rs : String) (fn : String) (tree : FTree) (p : String)
    (hf : f = some fn) (hne : fn ≠ "") (hal : allowed_file fn = true)
    (har : a = some tree)
    (hfind : find_file "package.json" (joinPath BUILD_FOLDER (splitextRoot fn)) tree = some p)
    (hb : b = 0) :
    upload_file ⟨f, a, u, d, b, bs, rm, rn, rs⟩ =
      upload_file ⟨f, a, u, d, b, bs, rm', rn, rs⟩ ∧
    (upload_file ⟨f, a, u, d, b, bs, rm, rn, rs⟩).2 =
      [Effect.saveFile (joinPath UPLOAD_FOLDER fn),
       Effect.unpackArchive (joinPath UPLOAD_FOLDER fn)
         (joinPath BUILD_FOLDER (splitextRoot fn))]
      ++ (ensureDockerfile (dirname p) ⟨d⟩).2
      ++ [Effect.procBuild (imageNameOf fn) (dirname p),
          Effect.procRm (containerNameOf fn) true,
          Effect.procRun true (containerNameOf fn) "3000:3000" (imageNameOf fn)] := by
  refine ⟨upload_file_rm_exit_irrelevant f a u d b bs rm rm' rn rs, ?_⟩
  by_cases hrn : rn = 0 <;> simp [upload_file, hf, hne, hal, har, hfind, hb, hrn]

/-- Witness for C8: the successful `demo.zip` run with removal exit 0
versus the same world with removal exit 1. -/
theorem upload_rm_failure_swallowed_witness :
    upload_file ⟨some "demo.zip", some tDemo, "", none, 0, "", 0, 0, ""⟩ =
      upload_file ⟨some "demo.zip", some tDemo, "", none, 0, "", 1, 0, ""⟩ ∧
    (upload_file ⟨some "demo.zip", some tDemo, "", none, 0, "", 0, 0, ""⟩).2 =
      [Effect.saveFile "./uploads/demo.zip",
       Effect.unpackArchive "./uploads/demo.zip" "./builds/demo"]
      ++ (ensureDockerfile "./builds/demo/sub/pkg" ⟨none⟩).2
      ++ [Effect.procBuild "demo-image" "./builds/demo/sub/pkg",
          Effect.procRm "demo-container" true,
          Effect.procRun true "demo-container" "3000:3000" "demo-image"] :=
  upload_rm_failure_swallowed (some "demo.zip") (some tDemo) "" none 0 "" 0 1 0 ""
    "demo.zip" tDemo "./builds/demo/sub/pkg/package.json"
    rfl (by decide) (by decide) rfl (by decide) rfl

/-- C9: when the build exits non-zero, no `docker rm` of any container
and no `docker run` ever appears in the trace — a failed rebuild leaves
the existing deployment untouched. -/
theorem upload_failed_build_leaves_container (w : World) (fn : String)
    (tree : FTree) (p : String)
    (hf : w.fileField = some fn) (hne : fn ≠ "") (hal : allowed_file fn = true)
    (har : w.archive = some tree)
    (hfind : find_file "package.json" (joinPath BUILD_FOLDER (splitextRoot fn)) tree = some p)
    (hb : w.buildExitCode ≠ 0) :
    (∀ c b2, Effect.procRm c b2 ∉ (upload_file w).2) ∧
    (∀ dt c pt i, Effect.procRun dt c pt i ∉ (upload_file w).2) := by
  have hmain : (upload_file w).2 =
      [Effect.saveFile (joinPath UPLOAD_FOLDER fn),
       Effect.unpackArchive (joinPath UPLOAD_FOLDER fn)
         (joinPath BUILD_FOLDER (splitextRoot fn))]
      ++ (ensureDockerfile (dirname p) ⟨w.dockerfile⟩).2
      ++ [Effect.procBuild (imageNameOf fn) (dirname p)] := by
    simp [upload_file, hf, hne, hal, har, hfind, hb]
  constructor
  · intro c b2
    rw [hmain]
    cases hdw : w.dockerfile <;> simp [ensureDockerfile]
  · intro dt c pt i
    rw [hmain]
    cases hdw : w.dockerfile <;> simp [ensureDockerfile]

/-- Witness for C9: the failed-build `demo.zip` world neither removes
nor runs its container. -/
theorem upload_failed_build_leaves_container_witness :
    Effect.procRm "demo-container" true ∉ (upload_file wBuildFail).2 ∧
    Effect.procRun true "demo-container" "3000:3000" "demo-image" ∉
      (upload_file wBuildFail).2 :=
  ⟨(upload_failed_build_leaves_container wBuildFail "demo.zip" tDemo
      "./builds/demo/sub/pkg/package.json"
      rfl (by decide) (by decide) rfl (by decide) (by decide)).1
      "demo-container" true,
   (upload_failed_build_leaves_container wBuildFail "demo.zip" tDemo
      "./builds/demo/sub/pkg/package.json"
      rfl (by decide) (by decide) rfl (by decide) (by decide)).2
      true "demo-container" "3000:3000" "demo-image"⟩

/-- C10: validation only checks the substring after the last dot,
case-insensitively, so `../../evil.zip`, the bare `.zip`, and mixed
case are all accepted; the client-supplied filename is joined verbatim
onto the uploads directory (and, extension stripped, onto the builds
directory), and for `../../evil.zip` both resulting paths normalise to
locations outside those directories. -/
theorem upload_filename_unsanitized_escapes :
    allowed_file "../../evil.zip" = true ∧
    allowed_file ".zip" = true ∧
    allowed_file "x.ZiP" = true ∧
    (upload_file wEvil).2 =
      [Effect.saveFile (joinPath UPLOAD_FOLDER "../../evil.zip"),
       Effect.unpackArchive (joinPath UPLOAD_FOLDER "../../evil.zip")
         (joinPath BUILD_FOLDER (splitextRoot "../../evil.zip"))] ∧
    joinPath UPLOAD_FOLDER "../../evil.zip" = "./uploads/../../evil.zip" ∧
    pathWithin UPLOAD_FOLDER "./uploads/../../evil.zip" = false ∧
    splitextRoot "../../evil.zip" = "../../evil" ∧
    joinPath BUILD_FOLDER "../../evil" = "./builds/../../evil" ∧
    pathWithin BUILD_FOLDER "./builds/../../evil" = false ∧
    pathWithin UPLOAD_FOLDER (joinPath UPLOAD_FOLDER "demo.zip") = true := by
  refine ⟨by decide, by decide, by decide, by decide, by decide,
    by decide, by decide, by decide, by decide, by decide⟩

end App
